import Mathlib

/-!
Shallow embedding of the `upgrade-program` Solana program
(`src/programs/upgrade-program/src/{lib,state,error,ecdsa,processor,instructions}.rs`).

Bytes are modelled as `List Nat` (each entry one byte).  Machine `u64`
arithmetic is `Nat` with an explicit `% 2 ^ 64` where the source performs
unchecked `+` on a `u64`.  External collaborators that are not part of this
repository — the Keccak-256 syscall, `secp256k1_recover`,
`Pubkey::find_program_address`, and the well-known sysvar / program ids —
are oracle parameters collected in an `Env` record; the program code under
verification never inspects their internals, it only composes them, so every
theorem below is universally quantified over the oracle (or instantiates it
with a concrete computable stand-in for witnesses).
The `invoke_signed` cross-program invocations (account creation, BPF-loader
upgrade, set-upgrade-authority) touch state outside the `UpgradeAdmin`
record and are modelled as succeeding; all claims here are about the
`UpgradeAdmin` record and the handlers' own control flow.
-/

/-- Error type of the program, `error.rs` (`UpgradeError`).
`NotInit` embeds the source's second variant (name shortened). -/
inductive UpgradeError where
  | AlreadyInUse
  | NotInit
  | WrongAdmin
  | WrongSeeds
  | WrongSignature
  | InvalidSignature
deriving DecidableEq, Repr

/-- The persisted authority record, `state.rs` (`UpgradeAdmin`).
`public_key : [u8; 64]`, `contract : Pubkey` (32 bytes), `nonce : u64`,
and the boolean flag (source field `is_initialized`, name shortened). -/
structure UpgradeAdmin where
  public_key : List Nat
  contract : List Nat
  nonce : Nat
  is_init : Bool
deriving DecidableEq, Repr

/-- UTF-8 bytes of a string (all strings used here are ASCII). -/
def bytesOfString (s : String) : List Nat := s.data.map Char.toNat

/-- `lib.rs`: `const HASH_CONSTANT: &str = "solana-upgrade-program"`. -/
def HASH_CONSTANT : String := "solana-upgrade-program"

/-- `lib.rs`: `const PDA_ADMIN_SEED: &str = "admin-upgrade-account"`. -/
def PDA_ADMIN_SEED : String := "admin-upgrade-account"

/-- `HASH_CONSTANT.as_bytes()`. -/
def hashConstantBytes : List Nat := bytesOfString HASH_CONSTANT

/-- `PDA_ADMIN_SEED.as_bytes()`. -/
def pdaAdminSeedBytes : List Nat := bytesOfString PDA_ADMIN_SEED

/-- `u64::to_be_bytes`: the 8 big-endian bytes of a 64-bit value. -/
def u64_be_bytes (n : Nat) : List Nat :=
  [n / 2 ^ 56 % 256, n / 2 ^ 48 % 256, n / 2 ^ 40 % 256, n / 2 ^ 32 % 256,
   n / 2 ^ 24 % 256, n / 2 ^ 16 % 256, n / 2 ^ 8 % 256, n % 256]

/-- Oracle bundle for the external collaborators used by the program.
`find_program_address` takes the two seeds the program ever passes
(`PDA_ADMIN_SEED` bytes and a 32-byte pubkey) plus the program id, and
returns the derived address (the bump byte is only used for CPI signing,
which is outside the record model). -/
structure Env where
  keccak : List Nat → List Nat
  secp256k1_recover : List Nat → Nat → List Nat → Option (List Nat)
  find_program_address : List Nat → List Nat → List Nat → List Nat
  system_program_id : List Nat
  sysvar_clock_id : List Nat

/-- `ecdsa.rs`: `verify_ecdsa_signature(hash, sig, reid, target_key)`.
Returns `none` for `Ok(())` and `some e` for `Err(e.into())`. -/
def verify_ecdsa_signature (env : Env) (hash : List Nat) (sig : List Nat)
    (reid : Nat) (target_key : List Nat) : Option UpgradeError :=
  match env.secp256k1_recover hash reid sig with
  | none => some UpgradeError.InvalidSignature
  | some key => if key ≠ target_key then some UpgradeError.WrongSignature else none

/-- `processor.rs` lines 116–121: the byte string hashed in
`process_change_public_key`:
`[contract, nonce.to_be_bytes(), HASH_CONSTANT, new_public_key].concat()`. -/
def changePublicKeyMessage (st : UpgradeAdmin) (new_public_key : List Nat) : List Nat :=
  st.contract ++ u64_be_bytes st.nonce ++ hashConstantBytes ++ new_public_key

/-- `processor.rs` lines 159–164: the byte string hashed in
`process_change_authority` (payload is the new authority account's key). -/
def changeAuthorityMessage (st : UpgradeAdmin) (authority_key : List Nat) : List Nat :=
  st.contract ++ u64_be_bytes st.nonce ++ hashConstantBytes ++ authority_key

/-- `processor.rs` lines 222–227: the byte string hashed in
`process_upgrade` (payload is the buffer account's key; the resource
identifier is the record's stored `contract` field). -/
def upgradeMessage (st : UpgradeAdmin) (buffer_key : List Nat) : List Nat :=
  st.contract ++ u64_be_bytes st.nonce ++ hashConstantBytes ++ buffer_key

/-- The spec's message format (§6 of the spec, worded as
`resource_id ‖ nonce_be64 ‖ domain_tag ‖ operation_payload`), with the
resource identifier an explicit parameter so each reading of "resource id"
can be compared against the code. -/
def specMessageFormat (resource_id : List Nat) (nonce : Nat) (payload : List Nat) : List Nat :=
  resource_id ++ u64_be_bytes nonce ++ hashConstantBytes ++ payload

/-- `processor.rs` `process_init_admin`.  Inputs: the program id, the key of
account 0 (`upgrade_admin_info.key`), the record currently deserializable
from that account's data, and the instruction arguments.  The
`create_account` CPI allocates storage outside the record model and is
modelled as succeeding.  Returns the persisted record and the outcome
(`none` for `Ok(())`). -/
def process_init_admin (env : Env) (program_id upgrade_admin_key : List Nat)
    (st : UpgradeAdmin) (public_key upgrade_program : List Nat) :
    UpgradeAdmin × Option UpgradeError :=
  if env.find_program_address pdaAdminSeedBytes upgrade_program program_id ≠ upgrade_admin_key then
    (st, some UpgradeError.WrongAdmin)
  else if st.is_init then
    (st, some UpgradeError.AlreadyInUse)
  else
    ({ public_key := public_key, contract := upgrade_program, nonce := 0, is_init := true }, none)

/-- `processor.rs` `process_change_public_key`.  Note the source order:
the `is_initialized` check (line 105) comes before the
`find_program_address` check (lines 109–111). -/
def process_change_public_key (env : Env) (program_id upgrade_admin_key : List Nat)
    (st : UpgradeAdmin) (new_public_key signature : List Nat) (recovery_id : Nat) :
    UpgradeAdmin × Option UpgradeError :=
  if st.is_init = false then
    (st, some UpgradeError.NotInit)
  else if env.find_program_address pdaAdminSeedBytes st.contract program_id ≠ upgrade_admin_key then
    (st, some UpgradeError.WrongSeeds)
  else
    match verify_ecdsa_signature env (env.keccak (changePublicKeyMessage st new_public_key))
        signature recovery_id st.public_key with
    | some e => (st, some e)
    | none =>
        ({ st with public_key := new_public_key, nonce := (st.nonce + 1) % 2 ^ 64 }, none)

/-- `processor.rs` `process_change_authority`.  `authority_key` is the key
of account 2.  The `set_upgrade_authority` CPI acts on the BPF loader's
state, outside the record model, and is modelled as succeeding.  Source
order: `is_initialized` check (line 148) before seeds check (lines 152–155). -/
def process_change_authority (env : Env) (program_id upgrade_admin_key authority_key : List Nat)
    (st : UpgradeAdmin) (signature : List Nat) (recovery_id : Nat) :
    UpgradeAdmin × Option UpgradeError :=
  if st.is_init = false then
    (st, some UpgradeError.NotInit)
  else if env.find_program_address pdaAdminSeedBytes st.contract program_id ≠ upgrade_admin_key then
    (st, some UpgradeError.WrongSeeds)
  else
    match verify_ecdsa_signature env (env.keccak (changeAuthorityMessage st authority_key))
        signature recovery_id st.public_key with
    | some e => (st, some e)
    | none => ({ st with nonce := (st.nonce + 1) % 2 ^ 64 }, none)

/-- `processor.rs` `process_upgrade`.  `upgrade_program_key` is the key of
account 2, `upgrade_buffer_key` of account 3.  Source order here: seeds
check (lines 210–213, derived from the supplied program account's key)
before the `is_initialized` check (lines 216–218).  The `upgrade` CPI is
modelled as succeeding. -/
def process_upgrade (env : Env) (program_id upgrade_admin_key upgrade_program_key upgrade_buffer_key : List Nat)
    (st : UpgradeAdmin) (signature : List Nat) (recovery_id : Nat) :
    UpgradeAdmin × Option UpgradeError :=
  if env.find_program_address pdaAdminSeedBytes upgrade_program_key program_id ≠ upgrade_admin_key then
    (st, some UpgradeError.WrongSeeds)
  else if st.is_init = false then
    (st, some UpgradeError.NotInit)
  else
    match verify_ecdsa_signature env (env.keccak (upgradeMessage st upgrade_buffer_key))
        signature recovery_id st.public_key with
    | some e => (st, some e)
    | none => ({ st with nonce := (st.nonce + 1) % 2 ^ 64 }, none)

/-- One mutating operation together with the caller-supplied account keys
its handler reads (`upgrade_admin_key` is always account 0). -/
inductive MutOp where
  | changePublicKey (upgrade_admin_key new_public_key signature : List Nat) (recovery_id : Nat)
  | changeAuthority (upgrade_admin_key authority_key signature : List Nat) (recovery_id : Nat)
  | upgrade (upgrade_admin_key upgrade_program_key upgrade_buffer_key signature : List Nat)
      (recovery_id : Nat)
deriving DecidableEq, Repr

/-- Run one mutating operation's handler on a record. -/
def runMutOp (env : Env) (program_id : List Nat) (op : MutOp) (st : UpgradeAdmin) :
    UpgradeAdmin × Option UpgradeError :=
  match op with
  | MutOp.changePublicKey admin npk sig rid =>
      process_change_public_key env program_id admin st npk sig rid
  | MutOp.changeAuthority admin auth sig rid =>
      process_change_authority env program_id admin auth st sig rid
  | MutOp.upgrade admin prog buf sig rid =>
      process_upgrade env program_id admin prog buf st sig rid

/-- Run a sequence of mutating operations; `some` only if every single one
returned `Ok`. -/
def runMutSeq (env : Env) (program_id : List Nat) :
    List MutOp → UpgradeAdmin → Option UpgradeAdmin
  | [], st => some st
  | op :: ops, st =>
      match runMutOp env program_id op st with
      | (st2, none) => runMutSeq env program_id ops st2
      | (_, some _) => none

/-- Wire-level instruction, `instructions.rs` (`UpgradeInstruction`).
Variant order (Borsh tags 0–3) as in the source; the first variant embeds
the source's `InitializeAdmin(InitializeAdminArgs)` (name shortened). -/
inductive UpgradeInstruction where
  | initAdmin (public_key contract : List Nat)
  | changePublicKey (new_public_key signature : List Nat) (recovery_id : Nat)
  | changeAuthority (signature : List Nat) (recovery_id : Nat)
  | upgrade (signature : List Nat) (recovery_id : Nat)
deriving DecidableEq, Repr

/-- Split off exactly `n` bytes, or fail. -/
def takeExact (n : Nat) (bs : List Nat) : Option (List Nat × List Nat) :=
  if bs.length < n then none else some (bs.take n, bs.drop n)

/-- Borsh decoding of `UpgradeInstruction::try_from_slice`: a `u8` variant
tag, then the variant's fixed-layout fields (`[u8; 64]` and `Pubkey` as raw
bytes, `u8` as one byte), with the whole input consumed.
`InitializeAdminArgs` is 64 + 32 bytes, `ChangePublicKeyArgs` 64 + 64 + 1,
`ChangeAuthorityArgs` 64 + 1, `UpgradeArgs` 64 + 1. -/
def decodeUpgradeInstruction (input : List Nat) : Option UpgradeInstruction :=
  match input with
  | [] => none
  | tag :: rest =>
    if tag = 0 then
      match takeExact 64 rest with
      | none => none
      | some (pk, r1) =>
        match takeExact 32 r1 with
        | none => none
        | some (c, r2) => if r2 = [] then some (UpgradeInstruction.initAdmin pk c) else none
    else if tag = 1 then
      match takeExact 64 rest with
      | none => none
      | some (npk, r1) =>
        match takeExact 64 r1 with
        | none => none
        | some (sig, r2) =>
          match r2 with
          | [rid] => some (UpgradeInstruction.changePublicKey npk sig rid)
          | _ => none
    else if tag = 2 then
      match takeExact 64 rest with
      | none => none
      | some (sig, r1) =>
        match r1 with
        | [rid] => some (UpgradeInstruction.changeAuthority sig rid)
        | _ => none
    else if tag = 3 then
      match takeExact 64 rest with
      | none => none
      | some (sig, r1) =>
        match r1 with
        | [rid] => some (UpgradeInstruction.upgrade sig rid)
        | _ => none
    else none

/-- Errors visible at the entrypoint: a program-defined error, the Borsh
decode failure from `try_from_slice(input)?` (source:
`ProgramError::BorshIoError`), or `next_account_info` running out of
accounts (source: `ProgramError::NotEnoughAccountKeys`). -/
inductive ProgErr where
  | upg (e : UpgradeError)
  | borshError
  | notEnoughAccountKeys
deriving DecidableEq, Repr

/-- Lift a handler result into the entrypoint's error type. -/
def liftUpg : UpgradeAdmin × Option UpgradeError → UpgradeAdmin × Option ProgErr
  | (st, none) => (st, none)
  | (st, some e) => (st, some (ProgErr.upg e))

/-- Routing of a decoded instruction to its handler (`processor.rs`
lines 21–38), including each handler's `next_account_info` prologue:
`accounts` is the list of account keys in invocation order, the record `st`
is the data of account 0. -/
def route_instruction (env : Env) (program_id : List Nat) (accounts : List (List Nat))
    (st : UpgradeAdmin) : UpgradeInstruction → UpgradeAdmin × Option ProgErr
  | UpgradeInstruction.initAdmin pk c =>
      match accounts.get? 0, accounts.get? 1, accounts.get? 2, accounts.get? 3 with
      | some admin, some _, some _, some _ =>
          liftUpg (process_init_admin env program_id admin st pk c)
      | _, _, _, _ => (st, some ProgErr.notEnoughAccountKeys)
  | UpgradeInstruction.changePublicKey npk sig rid =>
      match accounts.get? 0 with
      | some admin => liftUpg (process_change_public_key env program_id admin st npk sig rid)
      | none => (st, some ProgErr.notEnoughAccountKeys)
  | UpgradeInstruction.changeAuthority sig rid =>
      match accounts.get? 0, accounts.get? 1, accounts.get? 2 with
      | some admin, some _, some auth =>
          liftUpg (process_change_authority env program_id admin auth st sig rid)
      | _, _, _ => (st, some ProgErr.notEnoughAccountKeys)
  | UpgradeInstruction.upgrade sig rid =>
      match accounts.get? 0, accounts.get? 1, accounts.get? 2, accounts.get? 3,
            accounts.get? 4, accounts.get? 5, accounts.get? 6 with
      | some admin, some _, some prog, some buf, some _, some _, some _ =>
          liftUpg (process_upgrade env program_id admin prog buf st sig rid)
      | _, _, _, _, _, _, _ => (st, some ProgErr.notEnoughAccountKeys)

/-- `processor.rs` `process_instruction`: Borsh-decode the raw input, then
route; a decode failure surfaces before any handler runs and before the
record is touched. -/
def process_instruction (env : Env) (program_id : List Nat) (accounts : List (List Nat))
    (st : UpgradeAdmin) (input : List Nat) : UpgradeAdmin × Option ProgErr :=
  match decodeUpgradeInstruction input with
  | none => (st, some ProgErr.borshError)
  | some i => route_instruction env program_id accounts st i

/-- An account reference in a built instruction (`AccountMeta`). -/
structure AccountMeta where
  pubkey : List Nat
  is_signer : Bool
  is_writable : Bool
deriving DecidableEq, Repr

/-- A built instruction (`solana_program::instruction::Instruction`). -/
structure SolInstruction where
  program_id : List Nat
  accounts : List AccountMeta
  data : List Nat
deriving DecidableEq, Repr

/-- `Pubkey::default()`: the all-zero 32-byte key. -/
def defaultPubkey : List Nat := List.replicate 32 0

/-- `instructions.rs` lines 95–117, the client builder for the first
instruction (source name `initialize_admin`, shortened here).  It derives
the admin address from `contract` but serializes
`InitializeAdminArgs { public_key, contract: Default::default() }` —
the payload's contract field is the **default** pubkey, not `contract`.
`data` is the Borsh encoding: tag 0, then the 64-byte key, then the args'
contract field. -/
def init_admin_ix (env : Env) (program_id contract fee_payer public_key : List Nat) :
    SolInstruction :=
  let admin := env.find_program_address pdaAdminSeedBytes contract program_id
  { program_id := program_id
  , data := 0 :: (public_key ++ defaultPubkey)
  , accounts :=
      [ { pubkey := admin, is_signer := false, is_writable := true }
      , { pubkey := fee_payer, is_signer := true, is_writable := true }
      , { pubkey := env.system_program_id, is_signer := false, is_writable := false }
      , { pubkey := env.sysvar_clock_id, is_signer := false, is_writable := false } ] }

/-! Concrete inputs used by witnesses and counterexamples.  Addresses and
keys are arbitrary byte strings of the right lengths; the oracles are
computable stand-ins respecting only the shapes the program relies on. -/

/-- A 32-byte program id. -/
def pidW : List Nat := List.replicate 32 11

/-- A 32-byte admin account address. -/
def adminW : List Nat := List.replicate 32 1

/-- A 32-byte contract (governed program) pubkey. -/
def contractW : List Nat := List.replicate 32 3

/-- A 32-byte program account key distinct from `contractW`. -/
def progW : List Nat := List.replicate 32 4

/-- A 32-byte fee-payer key. -/
def feeW : List Nat := List.replicate 32 5

/-- A 32-byte buffer account key. -/
def bufW : List Nat := List.replicate 32 6

/-- A 64-byte secp256k1 public key. -/
def keyW : List Nat := List.replicate 64 7

/-- A second, distinct 64-byte public key. -/
def key2W : List Nat := List.replicate 64 9

/-- A 64-byte signature blob (contents irrelevant to the oracles used). -/
def sigW : List Nat := List.replicate 64 0

/-- The all-zero record a freshly allocated account deserializes to. -/
def zeroRecord : UpgradeAdmin :=
  { public_key := List.replicate 64 0, contract := List.replicate 32 0
  , nonce := 0, is_init := false }

/-- An already-initialized record with key `keyW` and nonce 0. -/
def stW : UpgradeAdmin :=
  { public_key := keyW, contract := contractW, nonce := 0, is_init := true }

/-- An initialized record whose nonce sits at the `u64` maximum. -/
def stMaxW : UpgradeAdmin :=
  { public_key := keyW, contract := contractW, nonce := 2 ^ 64 - 1, is_init := true }

/-- Oracle stand-in whose recovery always yields `key` and whose address
derivation always yields `adminW`. -/
def envConst (key : List Nat) : Env :=
  { keccak := fun b => b
  , secp256k1_recover := fun _ _ _ => some key
  , find_program_address := fun _ _ _ => adminW
  , system_program_id := defaultPubkey
  , sysvar_clock_id := List.replicate 32 2 }

/-- Oracle stand-in whose recovery always fails. -/
def envFailRec : Env :=
  { keccak := fun b => b
  , secp256k1_recover := fun _ _ _ => none
  , find_program_address := fun _ _ _ => adminW
  , system_program_id := defaultPubkey
  , sysvar_clock_id := List.replicate 32 2 }

/-- Oracle stand-in whose address derivation returns its pubkey seed
unchanged (so distinct seeds derive distinct addresses). -/
def envDerive : Env :=
  { keccak := fun b => b
  , secp256k1_recover := fun _ _ _ => none
  , find_program_address := fun _ c _ => c
  , system_program_id := defaultPubkey
  , sysvar_clock_id := List.replicate 32 2 }

/-- Oracle stand-in for the C4 counterexample: recovery succeeds with the
stored key exactly on the hash of the message the claim says `Upgrade`
signs over (resource id = the supplied program account key `progW`). -/
def envC4 : Env :=
  { keccak := fun b => b
  , secp256k1_recover := fun h _ _ =>
      if h = specMessageFormat progW 0 bufW then some keyW else none
  , find_program_address := fun _ _ _ => adminW
  , system_program_id := defaultPubkey
  , sysvar_clock_id := List.replicate 32 2 }

/-- Two successful rotations (each to the currently stored key, which
`envConst keyW` accepts) used by the C1 witness. -/
def opsW : List MutOp :=
  [MutOp.changePublicKey adminW keyW sigW 0, MutOp.changePublicKey adminW keyW sigW 0]

/-- Expected record after running `opsW` from `stW`. -/
def stAfterOpsW : UpgradeAdmin :=
  { public_key := keyW, contract := contractW, nonce := 2, is_init := true }

/-- Record after a successful rotation of `stW` to `key2W`. -/
def st1W : UpgradeAdmin :=
  { public_key := key2W, contract := contractW, nonce := 1, is_init := true }

/-- Nonce step: any mutating handler that returns `Ok` sets the persisted
nonce to `(old + 1) % 2 ^ 64` (the wrapping `u64` increment the source's
`nonce + 1` performs in release builds). -/
theorem runMutOp_nonce (env : Env) (pid : List Nat) (op : MutOp) (st st2 : UpgradeAdmin)
    (h : runMutOp env pid op st = (st2, none)) :
    st2.nonce = (st.nonce + 1) % 2 ^ 64 := by
  cases op <;>
    simp only [runMutOp, process_change_public_key, process_change_authority,
      process_upgrade] at h <;>
    (repeat' split at h) <;>
    (rw [Prod.mk.injEq] at h
     obtain ⟨h1, h2⟩ := h
     first
       | exact Option.noConfusion h2
       | (subst h1; simp))

/-- Claim C1, amended: for any sequence of N successful mutating operations
whose initial nonce plus N stays below `2 ^ 64`, the final nonce equals the
initial nonce plus N (each successful operation adds exactly 1).  The
unamended claim also asserted this at nonce `2 ^ 64 - 1`, where the `u64`
increment instead wraps to 0 — see the counterexample. -/
theorem c1_nonce_sequence (env : Env) (pid : List Nat) (ops : List MutOp)
    (st st' : UpgradeAdmin) (hb : st.nonce + ops.length < 2 ^ 64)
    (h : runMutSeq env pid ops st = some st') :
    st'.nonce = st.nonce + ops.length := by
  induction ops generalizing st with
  | nil =>
      simp only [runMutSeq, Option.some.injEq] at h
      simp [← h]
  | cons op ops ih =>
      simp only [runMutSeq] at h
      rcases hr : runMutOp env pid op st with ⟨st2, o⟩
      rw [hr] at h
      cases o with
      | some e => simp at h
      | none =>
          have hn := runMutOp_nonce env pid op st st2 hr
          have hlen : (op :: ops).length = ops.length + 1 := by simp
          have hlt : st.nonce + 1 < 2 ^ 64 := by simp [hlen] at hb; omega
          have hn2 : st2.nonce = st.nonce + 1 := by rw [hn, Nat.mod_eq_of_lt hlt]
          have hrest := ih st2 (by simp [hlen] at hb ⊢; omega) h
          simp only [hlen]
          omega

/-- Claim C1, counterexample: a successful `ChangePublicKey` on a record
whose nonce is `2 ^ 64 - 1` returns `Ok` yet leaves the nonce at 0 — not
`old + 1`, and a wrap/reset the claim rules out. -/
theorem c1_counterexample :
    runMutOp (envConst keyW) pidW (MutOp.changePublicKey adminW keyW sigW 0) stMaxW
        = ({ public_key := keyW, contract := contractW, nonce := 0, is_init := true }, none)
      ∧ stMaxW.nonce = 2 ^ 64 - 1
      ∧ (0 : Nat) ≠ stMaxW.nonce + 1
      ∧ (0 : Nat) < stMaxW.nonce := by decide

/-- Claim C1, witness: two successful rotations advance the nonce from 0
to 2. -/
theorem c1_witness :
    stW.nonce + opsW.length < 2 ^ 64
      ∧ runMutSeq (envConst keyW) pidW opsW stW = some stAfterOpsW
      ∧ stAfterOpsW.nonce = stW.nonce + opsW.length :=
  ⟨by decide, by decide,
    c1_nonce_sequence (envConst keyW) pidW opsW stW stAfterOpsW (by decide) (by decide)⟩

/-- Claim C2, counterexample: `ChangePublicKey` on an uninitialized record
whose supplied address fails the derivation returns `NotInitialized`
(source order: `is_initialized` check before the seeds check), not the
`WrongSeeds`/`WrongAdmin` the claim requires. -/
theorem c2_counterexample :
    envDerive.find_program_address pdaAdminSeedBytes zeroRecord.contract pidW ≠ adminW
      ∧ zeroRecord.is_init = false
      ∧ process_change_public_key envDerive pidW adminW zeroRecord keyW sigW 0
        = (zeroRecord, some UpgradeError.NotInit)
      ∧ UpgradeError.NotInit ≠ UpgradeError.WrongSeeds
      ∧ UpgradeError.NotInit ≠ UpgradeError.WrongAdmin := by decide

/-- Claim C2, amended: `ChangePublicKey` and `ChangeAuthority` check the
initialization state first (an uninitialized record yields `NotInitialized`
whatever the address), while `Upgrade` and `InitializeAdmin` check address
binding first (`WrongSeeds` / `WrongAdmin` wins there); signature
verification comes after both, and every failing check leaves the record
untouched. -/
theorem c2_check_order (env : Env) (pid addr : List Nat)
    (npk sig auth upgrade_program_key buf K c : List Nat) (rid : Nat) (st : UpgradeAdmin)
    (h : st.is_init = false) :
    process_change_public_key env pid addr st npk sig rid = (st, some UpgradeError.NotInit)
      ∧ process_change_authority env pid addr auth st sig rid = (st, some UpgradeError.NotInit)
      ∧ (env.find_program_address pdaAdminSeedBytes upgrade_program_key pid ≠ addr →
          process_upgrade env pid addr upgrade_program_key buf st sig rid
            = (st, some UpgradeError.WrongSeeds))
      ∧ (env.find_program_address pdaAdminSeedBytes upgrade_program_key pid = addr →
          process_upgrade env pid addr upgrade_program_key buf st sig rid
            = (st, some UpgradeError.NotInit))
      ∧ (env.find_program_address pdaAdminSeedBytes c pid ≠ addr →
          process_init_admin env pid addr st K c = (st, some UpgradeError.WrongAdmin)) := by
  refine ⟨?_, ?_, fun hd => ?_, fun hd => ?_, fun hd => ?_⟩
  · simp [process_change_public_key, h]
  · simp [process_change_authority, h]
  · simp [process_upgrade, hd]
  · simp [process_upgrade, hd, h]
  · simp [process_init_admin, hd]

/-- Claim C2, witness for the amended statement at a concrete
uninitialized record. -/
theorem c2_witness :
    zeroRecord.is_init = false
      ∧ process_change_public_key envDerive pidW adminW zeroRecord key2W sigW 1
        = (zeroRecord, some UpgradeError.NotInit) :=
  ⟨by decide,
    (c2_check_order envDerive pidW adminW key2W sigW key2W progW bufW keyW contractW 1
      zeroRecord (by decide)).1⟩

/-- Claim C3: after a successful `InitializeAdmin`, a second
`InitializeAdmin` for the same contract — with any key — fails with
`AlreadyInUse` and leaves the record holding the first call's key. -/
theorem c3_second_init_fails (env : Env) (pid addr : List Nat) (st st1 : UpgradeAdmin)
    (K c K2 : List Nat)
    (h1 : process_init_admin env pid addr st K c = (st1, none)) :
    process_init_admin env pid addr st1 K2 c = (st1, some UpgradeError.AlreadyInUse)
      ∧ st1.public_key = K := by
  by_cases hd : env.find_program_address pdaAdminSeedBytes c pid = addr
  · by_cases hinit : st.is_init
    · simp [process_init_admin, hd, hinit] at h1
    · simp [process_init_admin, hd, hinit] at h1
      subst h1
      simp [process_init_admin, hd]
  · simp [process_init_admin, hd] at h1

/-- Claim C3, witness: concrete double initialization. -/
theorem c3_witness :
    process_init_admin envDerive pidW contractW zeroRecord keyW contractW = (stW, none)
      ∧ process_init_admin envDerive pidW contractW stW key2W contractW
        = (stW, some UpgradeError.AlreadyInUse)
      ∧ stW.public_key = keyW :=
  ⟨by decide,
    (c3_second_init_fails envDerive pidW contractW zeroRecord stW keyW contractW key2W
      (by decide)).1,
    (c3_second_init_fails envDerive pidW contractW zeroRecord stW keyW contractW key2W
      (by decide)).2⟩

/-- Claim C4, counterexample: on a record whose stored `contract` differs
from the supplied program account key, `Upgrade` hashes the **stored**
contract, not the supplied key as the claim says.  With an oracle whose
recovery succeeds (yielding the stored authority key) exactly on the hash
of the claim's message, the handler nevertheless fails with
`InvalidSignature`, so the verifier demonstrably did not receive the
claim's hash. -/
theorem c4_counterexample :
    upgradeMessage stW bufW ≠ specMessageFormat progW stW.nonce bufW
      ∧ envC4.secp256k1_recover (envC4.keccak (specMessageFormat progW stW.nonce bufW)) 0 sigW
        = some stW.public_key
      ∧ process_upgrade envC4 pidW adminW progW bufW stW sigW 0
        = (stW, some UpgradeError.InvalidSignature) := by decide

/-- Claim C4, amended: every mutating operation passes to the signature
verifier the Keccak-256 of `stored_contract ‖ nonce_be64 ‖
"solana-upgrade-program" ‖ payload` — the resource identifier is the
record's stored contract pubkey for all three operations, *including*
`Upgrade`; the payloads are the new 64-byte key, the new authority's
account key, and the buffer account key respectively, and once the address
and initialization checks pass the handler's outcome is exactly the
verifier's verdict on that hash. -/
theorem c4_message_format (env : Env) (pid addr : List Nat) (st : UpgradeAdmin)
    (new_public_key authority_key upgrade_program_key buffer_key sig : List Nat) (rid : Nat)
    (hinit : st.is_init = true)
    (hd1 : env.find_program_address pdaAdminSeedBytes st.contract pid = addr)
    (hd2 : env.find_program_address pdaAdminSeedBytes upgrade_program_key pid = addr) :
    changePublicKeyMessage st new_public_key
        = specMessageFormat st.contract st.nonce new_public_key
      ∧ changeAuthorityMessage st authority_key
        = specMessageFormat st.contract st.nonce authority_key
      ∧ upgradeMessage st buffer_key = specMessageFormat st.contract st.nonce buffer_key
      ∧ (process_change_public_key env pid addr st new_public_key sig rid).2
        = verify_ecdsa_signature env
            (env.keccak (specMessageFormat st.contract st.nonce new_public_key))
            sig rid st.public_key
      ∧ (process_change_authority env pid addr authority_key st sig rid).2
        = verify_ecdsa_signature env
            (env.keccak (specMessageFormat st.contract st.nonce authority_key))
            sig rid st.public_key
      ∧ (process_upgrade env pid addr upgrade_program_key buffer_key st sig rid).2
        = verify_ecdsa_signature env
            (env.keccak (specMessageFormat st.contract st.nonce buffer_key))
            sig rid st.public_key := by
  refine ⟨rfl, rfl, rfl, ?_, ?_, ?_⟩
  · have hmsg : specMessageFormat st.contract st.nonce new_public_key
        = changePublicKeyMessage st new_public_key := rfl
    rw [hmsg]
    rcases hv : verify_ecdsa_signature env (env.keccak (changePublicKeyMessage st new_public_key))
        sig rid st.public_key with _ | e <;>
      simp [process_change_public_key, hinit, hd1, hv]
  · have hmsg : specMessageFormat st.contract st.nonce authority_key
        = changeAuthorityMessage st authority_key := rfl
    rw [hmsg]
    rcases hv : verify_ecdsa_signature env (env.keccak (changeAuthorityMessage st authority_key))
        sig rid st.public_key with _ | e <;>
      simp [process_change_authority, hinit, hd1, hv]
  · have hmsg : specMessageFormat st.contract st.nonce buffer_key
        = upgradeMessage st buffer_key := rfl
    rw [hmsg]
    rcases hv : verify_ecdsa_signature env (env.keccak (upgradeMessage st buffer_key))
        sig rid st.public_key with _ | e <;>
      simp [process_upgrade, hinit, hd2, hv]

/-- Claim C4, witness for the amended statement at concrete inputs. -/
theorem c4_witness :
    stW.is_init = true
      ∧ (envConst keyW).find_program_address pdaAdminSeedBytes stW.contract pidW = adminW
      ∧ (process_upgrade (envConst keyW) pidW adminW progW bufW stW sigW 0).2
        = verify_ecdsa_signature (envConst keyW)
            ((envConst keyW).keccak (specMessageFormat stW.contract stW.nonce bufW))
            sigW 0 stW.public_key :=
  ⟨by decide, by decide,
    (c4_message_format (envConst keyW) pidW adminW stW key2W key2W progW bufW sigW 0
      (by decide) (by decide) (by decide)).2.2.2.2.2⟩

/-- Claim C5: starting from a successful initialization with key `K0` and
nonce 0, a rotation to `K1` whose signature recovers to `K0` succeeds and
yields key `K1`, nonce 1; replaying the byte-identical call — under the
cryptographic premise that the same signature against the *new* hash
(which now binds nonce 1) recovers to some key other than the stored
`K1` — fails with `WrongSignature` and leaves the record unchanged. -/
theorem c5_replay_rejected (env : Env) (pid addr : List Nat)
    (stInit st0 st1 : UpgradeAdmin) (R K0 K1 K2 sig : List Nat) (rid : Nat)
    (h0 : process_init_admin env pid addr stInit K0 R = (st0, none))
    (hst1 : st1 = { public_key := K1, contract := R, nonce := 1, is_init := true })
    (hr0 : env.secp256k1_recover (env.keccak (changePublicKeyMessage st0 K1)) rid sig = some K0)
    (hr1 : env.secp256k1_recover (env.keccak (changePublicKeyMessage st1 K1)) rid sig = some K2)
    (hne : K2 ≠ K1) :
    st0 = { public_key := K0, contract := R, nonce := 0, is_init := true }
      ∧ process_change_public_key env pid addr st0 K1 sig rid = (st1, none)
      ∧ process_change_public_key env pid addr st1 K1 sig rid
        = (st1, some UpgradeError.WrongSignature) := by
  by_cases hd : env.find_program_address pdaAdminSeedBytes R pid = addr
  · by_cases hinit : stInit.is_init
    · simp [process_init_admin, hd, hinit] at h0
    · simp [process_init_admin, hd, hinit] at h0
      subst h0
      subst hst1
      refine ⟨rfl, ?_, ?_⟩
      · simp [process_change_public_key, hd, verify_ecdsa_signature, hr0]
      · simp [process_change_public_key, hd, verify_ecdsa_signature, hr1, hne]
  · simp [process_init_admin, hd] at h0

/-- Claim C5, witness: the full scenario at concrete inputs (the replay's
recovery yields the old key `keyW`, which differs from the stored
`key2W`). -/
theorem c5_witness :
    process_init_admin (envConst keyW) pidW adminW zeroRecord keyW contractW = (stW, none)
      ∧ (envConst keyW).secp256k1_recover
          ((envConst keyW).keccak (changePublicKeyMessage stW key2W)) 0 sigW = some keyW
      ∧ (envConst keyW).secp256k1_recover
          ((envConst keyW).keccak (changePublicKeyMessage st1W key2W)) 0 sigW = some keyW
      ∧ keyW ≠ key2W
      ∧ (process_change_public_key (envConst keyW) pidW adminW stW key2W sigW 0 = (st1W, none)
        ∧ process_change_public_key (envConst keyW) pidW adminW st1W key2W sigW 0
          = (st1W, some UpgradeError.WrongSignature)) :=
  ⟨by decide, by decide, by decide, by decide,
    (c5_replay_rejected (envConst keyW) pidW adminW zeroRecord stW st1W contractW keyW key2W
      keyW sigW 0 (by decide) (by decide) (by decide) (by decide) (by decide)).2⟩

/-- Claim C6: the verifier's verdict is a trichotomy driven solely by
recovery — `InvalidSignature` exactly when recovery fails, `WrongSignature`
exactly when recovery yields a key differing byte-for-byte from the
expected key, `Ok` exactly when it yields the expected key, and nothing
else; it is a pure function of its inputs. -/
theorem c6_verify_trichotomy (env : Env) (hash sig target_key : List Nat) (reid : Nat) :
    (verify_ecdsa_signature env hash sig reid target_key = some UpgradeError.InvalidSignature
        ↔ env.secp256k1_recover hash reid sig = none)
      ∧ (verify_ecdsa_signature env hash sig reid target_key = some UpgradeError.WrongSignature
        ↔ ∃ k, env.secp256k1_recover hash reid sig = some k ∧ k ≠ target_key)
      ∧ (verify_ecdsa_signature env hash sig reid target_key = none
        ↔ env.secp256k1_recover hash reid sig = some target_key)
      ∧ ∀ e, verify_ecdsa_signature env hash sig reid target_key = some e
        → e = UpgradeError.InvalidSignature ∨ e = UpgradeError.WrongSignature := by
  rcases hr : env.secp256k1_recover hash reid sig with _ | k
  · simp [verify_ecdsa_signature, hr]
  · by_cases hk : k = target_key
    · subst hk
      simp [verify_ecdsa_signature, hr]
    · simp [verify_ecdsa_signature, hr, hk]

/-- Claim C6, witness: with a recovery oracle that fails, the verifier
returns `InvalidSignature`. -/
theorem c6_witness :
    verify_ecdsa_signature envFailRec sigW sigW 0 keyW = some UpgradeError.InvalidSignature :=
  (c6_verify_trichotomy envFailRec sigW sigW keyW 0).1.mpr (by decide)

/-- Claim C7: whenever signature verification fails (with either
`InvalidSignature` or `WrongSignature`) inside `ChangePublicKey`,
`ChangeAuthority` or `Upgrade`, the handler returns exactly that error and
the persisted record is the untouched pre-invocation record — no nonce
bump, no key change. -/
theorem c7_all_or_nothing (env : Env) (pid addr : List Nat) (st : UpgradeAdmin)
    (npk auth upgrade_program_key buf sig : List Nat) (rid : Nat) (e1 e2 e3 : UpgradeError)
    (hinit : st.is_init = true)
    (hd1 : env.find_program_address pdaAdminSeedBytes st.contract pid = addr)
    (hd2 : env.find_program_address pdaAdminSeedBytes upgrade_program_key pid = addr)
    (hv1 : verify_ecdsa_signature env (env.keccak (changePublicKeyMessage st npk))
      sig rid st.public_key = some e1)
    (hv2 : verify_ecdsa_signature env (env.keccak (changeAuthorityMessage st auth))
      sig rid st.public_key = some e2)
    (hv3 : verify_ecdsa_signature env (env.keccak (upgradeMessage st buf))
      sig rid st.public_key = some e3) :
    process_change_public_key env pid addr st npk sig rid = (st, some e1)
      ∧ process_change_authority env pid addr auth st sig rid = (st, some e2)
      ∧ process_upgrade env pid addr upgrade_program_key buf st sig rid = (st, some e3) := by
  refine ⟨?_, ?_, ?_⟩
  · simp [process_change_public_key, hinit, hd1, hv1]
  · simp [process_change_authority, hinit, hd1, hv2]
  · simp [process_upgrade, hinit, hd2, hv3]

/-- Claim C7, witness: with failing recovery all three handlers return
`InvalidSignature` and the record is unchanged. -/
theorem c7_witness :
    stW.is_init = true
      ∧ verify_ecdsa_signature envFailRec (envFailRec.keccak (changePublicKeyMessage stW key2W))
          sigW 0 stW.public_key = some UpgradeError.InvalidSignature
      ∧ (process_change_public_key envFailRec pidW adminW stW key2W sigW 0
          = (stW, some UpgradeError.InvalidSignature)
        ∧ process_change_authority envFailRec pidW adminW feeW stW sigW 0
          = (stW, some UpgradeError.InvalidSignature)
        ∧ process_upgrade envFailRec pidW adminW progW bufW stW sigW 0
          = (stW, some UpgradeError.InvalidSignature)) :=
  ⟨by decide, by decide,
    c7_all_or_nothing envFailRec pidW adminW stW key2W feeW progW bufW sigW 0
      UpgradeError.InvalidSignature UpgradeError.InvalidSignature UpgradeError.InvalidSignature
      (by decide) (by decide) (by decide) (by decide) (by decide) (by decide)⟩

/-- Claim C8: the entrypoint either decodes the input bytes into exactly
one of the four instruction variants and hands it to the matching handler,
or — on an undecodable input, in particular any unknown tag — fails with
the Borsh decode error before any handler runs, leaving the record
untouched. -/
theorem c8_dispatch (env : Env) (pid : List Nat) (accounts : List (List Nat))
    (st : UpgradeAdmin) (input : List Nat) :
    (decodeUpgradeInstruction input = none →
        process_instruction env pid accounts st input = (st, some ProgErr.borshError))
      ∧ (∀ i, decodeUpgradeInstruction input = some i →
        process_instruction env pid accounts st input = route_instruction env pid accounts st i)
      ∧ (∀ tag rest, input = tag :: rest → 3 < tag →
        process_instruction env pid accounts st input = (st, some ProgErr.borshError)) := by
  refine ⟨fun h => ?_, fun i h => ?_, fun tag rest he htag => ?_⟩
  · simp [process_instruction, h]
  · simp [process_instruction, h]
  · have h0 : ¬tag = 0 := by omega
    have h1 : ¬tag = 1 := by omega
    have h2 : ¬tag = 2 := by omega
    have h3 : ¬tag = 3 := by omega
    subst he
    simp [process_instruction, decodeUpgradeInstruction, h0, h1, h2, h3]

/-- Claim C8, witness: tag 9 is rejected before any handler, record
untouched. -/
theorem c8_witness :
    decodeUpgradeInstruction (9 :: sigW) = none
      ∧ process_instruction envFailRec pidW [adminW] stW (9 :: sigW)
        = (stW, some ProgErr.borshError) :=
  ⟨by decide, (c8_dispatch envFailRec pidW [adminW] stW (9 :: sigW)).1 (by decide)⟩

/-- Claim C9 (code bug): the client builder derives the admin address from
the real `contract` but serializes `contract: Default::default()` into the
payload (`instructions.rs` line 107).  Decoding the built data therefore
yields the all-zero contract, and the handler — which re-derives the
address from the payload's contract field — rejects the builder's own
instruction with `WrongAdmin` whenever `contract` is not the default
pubkey (shown here with a derivation oracle that is injective on the
pubkey seed). -/
theorem c9_builder_contract_bug :
    decodeUpgradeInstruction (init_admin_ix envDerive pidW contractW feeW keyW).data
        = some (UpgradeInstruction.initAdmin keyW defaultPubkey)
      ∧ defaultPubkey ≠ contractW
      ∧ (init_admin_ix envDerive pidW contractW feeW keyW).accounts.get? 0
        = some { pubkey := envDerive.find_program_address pdaAdminSeedBytes contractW pidW
               , is_signer := false, is_writable := true }
      ∧ process_init_admin envDerive pidW
          (envDerive.find_program_address pdaAdminSeedBytes contractW pidW)
          zeroRecord keyW defaultPubkey
        = (zeroRecord, some UpgradeError.WrongAdmin) := by decide

/-- Claim C10: `ChangePublicKey` validates nothing about the rotation
target — once the initialization, address and signature checks pass, any
64-byte `new_public_key` (zero, non-curve-point, or equal to the current
key) is stored verbatim as the sole authority, with `contract` and the
initialization flag unchanged and only the nonce bumped. -/
theorem c10_stores_key_verbatim (env : Env) (pid addr : List Nat) (st : UpgradeAdmin)
    (new_public_key sig : List Nat) (rid : Nat)
    (hinit : st.is_init = true)
    (hd : env.find_program_address pdaAdminSeedBytes st.contract pid = addr)
    (hv : verify_ecdsa_signature env (env.keccak (changePublicKeyMessage st new_public_key))
      sig rid st.public_key = none) :
    process_change_public_key env pid addr st new_public_key sig rid
        = ({ st with public_key := new_public_key, nonce := (st.nonce + 1) % 2 ^ 64 }, none)
      ∧ (process_change_public_key env pid addr st new_public_key sig rid).1.public_key
        = new_public_key
      ∧ (process_change_public_key env pid addr st new_public_key sig rid).1.contract
        = st.contract
      ∧ (process_change_public_key env pid addr st new_public_key sig rid).1.is_init
        = st.is_init := by
  have hmain : process_change_public_key env pid addr st new_public_key sig rid
      = ({ st with public_key := new_public_key, nonce := (st.nonce + 1) % 2 ^ 64 }, none) := by
    simp [process_change_public_key, hinit, hd, hv]
  exact ⟨hmain, by rw [hmain], by rw [hmain], by rw [hmain]⟩

/-- Claim C10, witness: rotating to the all-zero 64-byte key succeeds and
stores it verbatim. -/
theorem c10_witness :
    stW.is_init = true
      ∧ verify_ecdsa_signature (envConst keyW)
          ((envConst keyW).keccak (changePublicKeyMessage stW (List.replicate 64 0)))
          sigW 0 stW.public_key = none
      ∧ process_change_public_key (envConst keyW) pidW adminW stW (List.replicate 64 0) sigW 0
        = ({ stW with public_key := List.replicate 64 0,
                      nonce := (stW.nonce + 1) % 2 ^ 64 }, none) :=
  ⟨by decide, by decide,
    (c10_stores_key_verbatim (envConst keyW) pidW adminW stW (List.replicate 64 0) sigW 0
      (by decide) (by decide) (by decide)).1⟩
